import Mathlib

/-!
# Churn calculator — verification of the projection engine and CRM sync pipeline

This development embeds the churn financial projection engine
(`src/utils/calculations.ts`) and the resilient HubSpot synchronisation
pipeline (`src/utils/hubspot.ts`) as executable Lean definitions, and proves
the specified properties about them.

JavaScript numbers are modelled as exact rationals (`ℚ`): none of the
verified properties concern floating-point rounding, and every numeric
literal appearing in the source is exactly representable.  The handful of
places where a number is serialised to a string for the wire
(`toFixed(2)`, `Number#toString`) keep the numeric value or use a faithful
decimal formatter; no verified property inspects the serialised text.

The remote HubSpot account is modelled as an oracle `ℕ → CallOutcome`
assigning an outcome to the n-th HTTP request issued by the pipeline, and
every pipeline function threads a `Trace` recording the requests issued and
the backoff sleeps performed, so that "at most three attempts", "one
fallback call" and similar statements are about an observable request log.
-/

namespace ChurnCalc

/-- `CalculatorInputs` from `calculator.types.ts`.  Optional fields
(`customerAcquisitionCost`, `grossMargin`) are `Option ℚ`; `none` models an
absent (undefined) field. -/
structure CalculatorInputs where
  averageOrderValue : ℚ
  numberOfCustomers : ℚ
  purchaseFrequency : ℚ
  churnRate : ℚ
  customerAcquisitionCost : Option ℚ
  grossMargin : Option ℚ
deriving DecidableEq

/-- `ChurnScenario` from `calculator.types.ts`. -/
structure ChurnScenario where
  reductionPercentage : ℚ
  annualSavings : ℚ
  threeYearSavings : ℚ
deriving DecidableEq

/-- `toDecimal` from `calculations.ts`: normalises a 0–100 percentage to a
decimal. -/
def toDecimal (percentage : ℚ) : ℚ := percentage / 100

/-- `applyGrossMargin` from `calculations.ts`: scales a revenue figure by the
optional gross margin; `grossMargin == null` leaves the value untouched. -/
def applyGrossMargin (value : ℚ) (grossMargin : Option ℚ) : ℚ :=
  match grossMargin with
  | none => value
  | some g => value * toDecimal g

/-- `calculateAnnualRevenueLost` from `calculations.ts`. -/
def calculateAnnualRevenueLost (inputs : CalculatorInputs) : ℚ :=
  let churnRateDecimal := toDecimal inputs.churnRate
  let lostCustomers := inputs.numberOfCustomers * churnRateDecimal
  let annualRevenuePerCustomer := inputs.averageOrderValue * inputs.purchaseFrequency
  let annualRevenueLost := lostCustomers * annualRevenuePerCustomer
  applyGrossMargin annualRevenueLost inputs.grossMargin

/-- The body of the year-by-year loop of `calculateLifetimeValueLost`.
`ltvGo inputs years arpc fuel year remaining cumulative acc` runs the loop
for `fuel` more iterations starting at `year`, with the given
`remainingCustomers` and `cumulativeLoss`, appending `(year, cumulativeLoss)`
to the projections whenever `year` is one of the requested horizons.
`arpc` is the precomputed `annualRevenuePerCustomer`. -/
def ltvGo (inputs : CalculatorInputs) (years : List ℕ) (arpc : ℚ) :
    ℕ → ℕ → ℚ → ℚ → List (ℕ × ℚ) → List (ℕ × ℚ)
  | 0, _, _, _, acc => acc
  | fuel + 1, year, remaining, cumulative, acc =>
    let lostCustomersThisYear := remaining * toDecimal inputs.churnRate
    let revenueLostThisYear := lostCustomersThisYear * arpc
    let cumulativeLoss := cumulative + applyGrossMargin revenueLostThisYear inputs.grossMargin
    let acc1 := if year ∈ years then acc ++ [(year, cumulativeLoss)] else acc
    ltvGo inputs years arpc fuel (year + 1) (remaining - lostCustomersThisYear) cumulativeLoss acc1

/-- `calculateLifetimeValueLost` from `calculations.ts`.  The returned
`Record<number, number>` is modelled as an association list in insertion
order (ascending year); throwing on an empty horizon list is modelled with
`Except`.  The loop simulates years 1 up to `Math.max(...years)`. -/
def calculateLifetimeValueLost (inputs : CalculatorInputs) (years : List ℕ) :
    Except String (List (ℕ × ℚ)) :=
  if years = [] then
    .error "At least one projection horizon must be provided."
  else
    .ok (ltvGo inputs years (inputs.averageOrderValue * inputs.purchaseFrequency)
      (years.foldl max 0) 1 inputs.numberOfCustomers 0 [])

/-- `calculateReplacementCost` from `calculations.ts`. -/
def calculateReplacementCost (inputs : CalculatorInputs) : ℚ :=
  match inputs.customerAcquisitionCost with
  | none => 0
  | some cac => inputs.numberOfCustomers * toDecimal inputs.churnRate * cac

/-- The record-update `{ ...inputs, churnRate: c }` used when building a
reduction scenario's adjusted inputs. -/
def setChurnRate (inputs : CalculatorInputs) (c : ℚ) : CalculatorInputs :=
  ⟨inputs.averageOrderValue, inputs.numberOfCustomers, inputs.purchaseFrequency, c,
    inputs.customerAcquisitionCost, inputs.grossMargin⟩

/-- The JavaScript record access `calculateLifetimeValueLost(inputs, ys)[y]`.
For the call sites in `calculateChurnReductionScenarios` the key is always
present (see `ltvAt_three`), so the `0` defaults never fire. -/
def ltvAt (inputs : CalculatorInputs) (years : List ℕ) (y : ℕ) : ℚ :=
  match calculateLifetimeValueLost inputs years with
  | .ok l => (l.lookup y).getD 0
  | .error _ => 0

/-- `calculateChurnReductionScenarios` from `calculations.ts`: for each
reduction percentage in `[10, 25, 50]`, the annual and three-year savings
versus the baseline churn rate. -/
def calculateChurnReductionScenarios (inputs : CalculatorInputs) : List ChurnScenario :=
  let baseAnnualLoss := calculateAnnualRevenueLost inputs
  [(10 : ℚ), 25, 50].map (fun reductionPercentage =>
    let reductionDecimal := toDecimal reductionPercentage
    let adjustedInputs := setChurnRate inputs (inputs.churnRate * (1 - reductionDecimal))
    let adjustedAnnualLoss := calculateAnnualRevenueLost adjustedInputs
    let annualSavings := baseAnnualLoss - adjustedAnnualLoss
    let baseLtv := ltvAt inputs [3] 3
    let adjustedLtv := ltvAt adjustedInputs [3] 3
    ⟨reductionPercentage, annualSavings, baseLtv - adjustedLtv⟩)

/-- The scaling factor `applyGrossMargin` multiplies by: `grossMargin/100`
when a margin is present, `1` otherwise. -/
def marginFactor : Option ℚ → ℚ
  | none => 1
  | some g => g / 100

/-- The loop state of `calculateLifetimeValueLost` after `y` completed
iterations: `(remainingCustomers, cumulativeLoss)`. -/
def ltvState (i : CalculatorInputs) : ℕ → ℚ × ℚ
  | 0 => (i.numberOfCustomers, 0)
  | y + 1 =>
    let s := ltvState i y
    let lost := s.1 * toDecimal i.churnRate
    (s.1 - lost,
      s.2 + applyGrossMargin (lost * (i.averageOrderValue * i.purchaseFrequency)) i.grossMargin)

/-- The projections recorded for the requested horizons in
`[start, start + fuel)`, in ascending year order. -/
def projTargets (i : CalculatorInputs) (years : List ℕ) : ℕ → ℕ → List (ℕ × ℚ)
  | _, 0 => []
  | start, fuel + 1 =>
    (if start ∈ years then [(start, (ltvState i start).2)] else []) ++
      projTargets i years (start + 1) fuel

/-- The worked example of the specification: `averageOrderValue = 100`,
`numberOfCustomers = 1000`, `purchaseFrequency = 4`, `churnRate = 20`,
no CAC, no gross margin. -/
def egInputs : CalculatorInputs := ⟨100, 1000, 4, 20, none, none⟩

/-- The worked example with the churn rate replaced by `0`. -/
def zeroChurnInputs : CalculatorInputs := ⟨100, 1000, 4, 0, none, none⟩

/-! ## The HubSpot synchronisation pipeline (`hubspot.ts`) -/

/-- A JavaScript number as consumed by `calculateLeadScore`: either a finite
value (modelled exactly as a rational) or a non-finite one
(`NaN`, `Infinity`, `-Infinity`), which `Number.isFinite` rejects. -/
inductive JsNumber
  | finite (q : ℚ)
  | nonFinite
deriving DecidableEq

/-- JavaScript `Math.round`: round to the nearest integer, ties towards
positive infinity. -/
def jsRound (q : ℚ) : ℤ := ⌊q + 1 / 2⌋

/-- `calculateLeadScore` from `hubspot.ts`: `10` for non-finite or
non-positive projected loss, otherwise the loss capped at 1,000,000 and
mapped linearly onto 0–100, rounded. -/
def calculateLeadScore : JsNumber → ℤ
  | .nonFinite => 10
  | .finite q =>
    if q ≤ 0 then 10
    else min 100 (jsRound (min q 1000000 / 1000000 * 100))

/-- `determineLifecycleStage` from `hubspot.ts`.  An explicitly supplied
stage is returned verbatim (the TS type of `explicitStage` excludes the
empty string, so JS truthiness agrees with `Option` matching). -/
def determineLifecycleStage (leadScore : ℤ) (explicitStage : Option String) : String :=
  match explicitStage with
  | some stage => stage
  | none =>
    if 80 ≤ leadScore then "salesqualifiedlead"
    else if 60 ≤ leadScore then "marketingqualifiedlead"
    else if 40 ≤ leadScore then "lead"
    else "subscriber"

/-- `CalculatorResults` from `calculator.types.ts`; the
`Record<number, number>` is the association list produced by
`calculateLifetimeValueLost`. -/
structure CalculatorResults where
  annualRevenueLost : ℚ
  lifetimeValueLost : List (ℕ × ℚ)
  replacementCost : ℚ
  reducedChurnScenarios : List ChurnScenario
deriving DecidableEq

/-- `HubSpotFormData` from `hubspot.ts` (extending `LeadCapturePayload`).
`metadataPageUri` models `metadata.pageUri` when the metadata mapping is
present and carries that key. -/
structure HubSpotFormData where
  email : String
  firstName : Option String
  lastName : Option String
  company : Option String
  metadataPageUri : Option String
  storeName : Option String
  totalCustomers : Option ℚ
  averageOrderValue : Option ℚ
  churnRate : Option ℚ
  lifecycleStage : Option String
deriving DecidableEq

/-- `SubmitToHubSpotResult` from `hubspot.ts`. -/
structure SubmitToHubSpotResult where
  success : Bool
  contactId : Option String
  fallbackUsed : Bool
  message : String
deriving DecidableEq

/-- `CreateDealResult` from `hubspot.ts`. -/
structure CreateDealResult where
  success : Bool
  dealId : Option String
  message : String
deriving DecidableEq

/-- The contact property mapping built by `buildContactProperties`.
Numeric values keep their exact rational value; the source serialises them
with `toFixed(2)` / `toString()` just before the wire. -/
structure HubSpotContactProperties where
  email : String
  firstname : Option String
  lastname : Option String
  company : Option String
  annual_revenue_lost : ℚ
  churn_rate : Option ℚ
  total_customers : Option ℚ
  average_order_value : Option ℚ
  calculator_completed_date : String
  lead_score : ℤ
  lifecyclestage : String
deriving DecidableEq

/-- The deal property/association payload built by `createHubSpotDeal`.
`amount` keeps the exact value serialised by `toFixed(2)` in the source. -/
structure DealProperties where
  dealname : String
  amount : ℚ
  pipeline : String
  dealstage : String
  associationTypeId : ℕ
  associationCategory : String
deriving DecidableEq

/-- The HTTP requests the pipeline can issue, with their semantically
relevant arguments:
* `lookupContact email` — `GET /crm/v3/objects/contacts/{email}?idProperty=email`;
* `updateContact id props` — `PATCH /crm/v3/objects/contacts/{id}`;
* `createContact props` — `POST /crm/v3/objects/contacts`;
* `addToList listId contactId` — `POST /crm/v3/lists/{listId}/memberships/batch/add`;
* `formSubmit` / `fallbackSubmit` — `POST {forms base}/submissions/v3/integration/submit/{portalId}/{formId}`;
* `getContactDetails id` — `GET /crm/v3/objects/contacts/{id}`;
* `createDeal props contactId` — `POST /crm/v3/objects/deals`;
* `enrollWorkflow wf email` — `POST /automation/v3/workflows/{wf}/enrollments/contacts/{email}`. -/
inductive HubSpotCall
  | lookupContact (email : String)
  | updateContact (contactId : String) (properties : HubSpotContactProperties)
  | createContact (properties : HubSpotContactProperties)
  | addToList (listId : String) (contactId : String)
  | formSubmit (portalId : String) (formId : String)
      (fields : List (String × String)) (pageUri : Option String)
  | fallbackSubmit (portalId : String) (formId : String) (fields : List (String × String))
  | getContactDetails (contactId : String)
  | createDeal (properties : DealProperties) (contactId : String)
  | enrollWorkflow (workflowId : String) (email : String)
deriving DecidableEq

/-- The parsed JSON payload of a successful response, as far as the
pipeline reads it: the object `id` and the contact name/company properties.
An `id` the response does not carry is modelled as `""` (which is exactly
what the JS truthiness test `existingContact?.id` rejects). -/
structure ApiPayload where
  id : String
  company : Option String
  firstname : Option String
  lastname : Option String
deriving DecidableEq

/-- The remote's behaviour on one request: a 2xx response with a parsed
payload, a non-ok HTTP status (the transport raises `HubSpotApiError`), or
a transport-level network failure (`fetch` raises `TypeError`). -/
inductive CallOutcome
  | success (payload : ApiPayload)
  | httpError (status : ℕ) (message : String)
  | netError
deriving DecidableEq

/-- The error values flowing through the pipeline: `api` is
`HubSpotApiError {message, status}`, `network` is a transport `TypeError`,
`other` is a plain `Error` (e.g. missing access token or missing email). -/
inductive HSError
  | api (message : String) (status : ℕ)
  | network
  | other (message : String)
deriving DecidableEq

/-- `shouldRetry` from `hubspot.ts`: HTTP 429 or 5xx, or a network
`TypeError`; everything else is terminal. -/
def shouldRetry : HSError → Bool
  | .api _ status => status == 429 || decide (500 ≤ status)
  | .network => true
  | .other _ => false

/-- The environment configuration read from `import.meta.env`.  A missing
or empty (falsy) environment variable is modelled as `none`. -/
structure HSConfig where
  accessToken : Option String
  portalId : Option String
  formId : Option String
  calculatorListId : Option String
  workflowId : Option String

/-- The ambient context of a pipeline run: the remote account's behaviour
(`oracle n` is the outcome of the n-th request issued), the environment
configuration, and the `new Date().toISOString()` timestamp. -/
structure HubSpotCtx where
  oracle : ℕ → CallOutcome
  config : HSConfig
  nowIso : String

/-- The observable effects of a run: the requests issued, in order, and the
backoff sleeps performed, in order (milliseconds). -/
structure Trace where
  calls : List HubSpotCall
  sleeps : List ℕ
deriving DecidableEq

def emptyTrace : Trace := ⟨[], []⟩

def addCall (c : HubSpotCall) (t : Trace) : Trace := ⟨t.calls ++ [c], t.sleeps⟩

def addSleep (ms : ℕ) (t : Trace) : Trace := ⟨t.calls, t.sleeps ++ [ms]⟩

/-- The loop of `withRetry` from `hubspot.ts`.  `fuel` is
`maxAttempts - attempt`, so the guard `attempt >= maxAttempts` of the
source is `fuel = 0` after the current attempt.  The `throw lastError`
after the loop (reachable only when `maxAttempts = 0`, where `lastError`
is still `undefined`) is modelled as a generic error. -/
def withRetryGo {α : Type} (operation : ℕ → Trace → Except HSError α × Trace) :
    ℕ → ℕ → Trace → Except HSError α × Trace
  | 0, _, t => (.error (.other "lastError"), t)
  | fuel + 1, attempt, t =>
    match operation (attempt + 1) t with
    | (.ok v, t1) => (.ok v, t1)
    | (.error e, t1) =>
      if shouldRetry e = false ∨ fuel = 0 then (.error e, t1)
      else withRetryGo operation fuel (attempt + 1) (addSleep (500 * 2 ^ attempt) t1)

/-- `withRetry` from `hubspot.ts`: up to `maxAttempts` attempts with
backoff `500 * 2 ^ (attempt - 1)` ms before each retry. -/
def withRetry {α : Type} (operation : ℕ → Trace → Except HSError α × Trace)
    (maxAttempts : ℕ) (t : Trace) : Except HSError α × Trace :=
  withRetryGo operation maxAttempts 0 t

/-- `hubspotRequest` from `hubspot.ts`: fails fast (before any request is
issued) when the access token is unconfigured, otherwise issues the request
and classifies the outcome. -/
def hubspotRequest (ctx : HubSpotCtx) (call : HubSpotCall) (t : Trace) :
    Except HSError ApiPayload × Trace :=
  match ctx.config.accessToken with
  | none => (.error (.other "HubSpot access token is not configured."), t)
  | some _ =>
    match ctx.oracle t.calls.length with
    | .success payload => (.ok payload, addCall call t)
    | .httpError status message => (.error (.api message status), addCall call t)
    | .netError => (.error .network, addCall call t)

/-- A raw `fetch` against the forms endpoint (no access token involved). -/
def formsFetch (ctx : HubSpotCtx) (call : HubSpotCall) (t : Trace) : CallOutcome × Trace :=
  (ctx.oracle t.calls.length, addCall call t)

/-- JavaScript `??` on optional values. -/
def jsNullish {α : Type} (a b : Option α) : Option α :=
  match a with
  | some v => some v
  | none => b

/-- JavaScript `||` on strings (empty string is falsy). -/
def jsOr (a b : String) : String := if a = "" then b else a

/-- `Number#toFixed(2)`: the value rounded to two decimals, rendered with
exactly two fraction digits. -/
def toFixed2 (q : ℚ) : String :=
  let n : ℤ := jsRound (q * 100)
  let m := n.natAbs
  (if n < 0 then "-" else "") ++
    toString (m / 100) ++ "." ++ (if m % 100 < 10 then "0" else "") ++ toString (m % 100)

/-- Stand-in for JavaScript `Number#toString`; the exact decimal text is
not inspected by any verified property. -/
def ratToString (q : ℚ) : String := toString q

/-- `buildContactProperties` from `hubspot.ts`. -/
def buildContactProperties (formData : HubSpotFormData) (calculatorResults : CalculatorResults)
    (nowIso : String) : HubSpotContactProperties :=
  let leadScore := calculateLeadScore (.finite calculatorResults.annualRevenueLost)
  let lifecycleStage := determineLifecycleStage leadScore formData.lifecycleStage
  ⟨formData.email, formData.firstName, formData.lastName,
    jsNullish formData.company formData.storeName,
    calculatorResults.annualRevenueLost, formData.churnRate, formData.totalCustomers,
    formData.averageOrderValue, nowIso, leadScore, lifecycleStage⟩

/-- The `fields` array of `submitFormSubmission`: named values, with absent
and blank (whitespace-only) values filtered out. -/
def formFields (formData : HubSpotFormData) (calculatorResults : CalculatorResults) :
    List (String × String) :=
  ([("email", some formData.email),
    ("firstname", formData.firstName),
    ("lastname", formData.lastName),
    ("company", jsNullish formData.company formData.storeName),
    ("annual_revenue_lost", some (toFixed2 calculatorResults.annualRevenueLost)),
    ("average_order_value", formData.averageOrderValue.map toFixed2),
    ("total_customers", formData.totalCustomers.map ratToString),
    ("churn_rate", formData.churnRate.map ratToString)]).filterMap
    (fun field =>
      match field.2 with
      | some v => if v.trim = "" then none else some (field.1, v)
      | none => none)

/-- The `fields` array of `submitEmailOnlyFallback`: email and company
only, with falsy values filtered out. -/
def fallbackFields (formData : HubSpotFormData) : List (String × String) :=
  ([("email", some formData.email),
    ("company", jsNullish formData.company formData.storeName)]).filterMap
    (fun field =>
      match field.2 with
      | some v => if v = "" then none else some (field.1, v)
      | none => none)

/-- JavaScript string whitespace, as far as the emails this pipeline
handles are concerned. -/
def isJsSpace (c : Char) : Bool := c = ' ' ∨ c = '\t' ∨ c = '\n' ∨ c = '\r'

/-- `String.prototype.trim`, structurally: drop whitespace from both
ends. -/
def jsTrim (s : String) : String :=
  ⟨((s.data.dropWhile isJsSpace).reverse.dropWhile isJsSpace).reverse⟩

/-- `String.prototype.toLowerCase`, structurally (ASCII as used for email
idempotency keys). -/
def jsToLower (s : String) : String := ⟨s.data.map Char.toLower⟩

/-- The retried operation of the contact lookup in `upsertContact`: a 404
from the lookup is converted to "not found" *inside* the retried closure,
so it is never retried. -/
def lookupContactOp (ctx : HubSpotCtx) (email : String) (t : Trace) :
    Except HSError (Option ApiPayload) × Trace :=
  match hubspotRequest ctx (.lookupContact email) t with
  | (.ok payload, t1) => (.ok (some payload), t1)
  | (.error e, t1) =>
    match e with
    | .api _ 404 => (.ok none, t1)
    | _ => (.error e, t1)

/-- The contact-creation branch of `upsertContact`. -/
def createContactPath (ctx : HubSpotCtx) (properties : HubSpotContactProperties) (t : Trace) :
    Except HSError String × Trace :=
  match withRetry (fun _ => hubspotRequest ctx (.createContact properties)) 3 t with
  | (.ok payload, t1) => (.ok payload.id, t1)
  | (.error e, t1) => (.error e, t1)

/-- `upsertContact` from `hubspot.ts`: look up by trimmed, lowercased
email; 404 means "create", a found contact with a truthy id means "update". -/
def upsertContact (ctx : HubSpotCtx) (formData : HubSpotFormData)
    (calculatorResults : CalculatorResults) (t : Trace) : Except HSError String × Trace :=
  let email := jsToLower (jsTrim formData.email)
  if email = "" then
    (.error (.other "Email is required to create or update a HubSpot contact."), t)
  else
    let properties := buildContactProperties formData calculatorResults ctx.nowIso
    match withRetry (fun _ => lookupContactOp ctx email) 3 t with
    | (.error e, t1) => (.error e, t1)
    | (.ok existingContact, t1) =>
      match existingContact with
      | some existing =>
        if existing.id ≠ "" then
          match withRetry (fun _ => hubspotRequest ctx (.updateContact existing.id properties)) 3 t1 with
          | (.ok _, t2) => (.ok existing.id, t2)
          | (.error e, t2) => (.error e, t2)
        else createContactPath ctx properties t1
      | none => createContactPath ctx properties t1

/-- `addContactToList` from `hubspot.ts`: a no-op when the list id is
unconfigured; otherwise best-effort — any failure is caught and logged. -/
def addContactToList (ctx : HubSpotCtx) (contactId : String) (t : Trace) : Trace :=
  match ctx.config.calculatorListId with
  | none => t
  | some listId =>
    match withRetry (fun _ => hubspotRequest ctx (.addToList listId contactId)) 3 t with
    | (_, t1) => t1

/-- The retried operation of `submitFormSubmission`: a raw `fetch` whose
non-ok response raises `HubSpotApiError` and whose transport failure raises
`TypeError`. -/
def submitFormSubmissionOp (ctx : HubSpotCtx) (portalId formId : String)
    (fields : List (String × String)) (pageUri : Option String) (t : Trace) :
    Except HSError Unit × Trace :=
  match formsFetch ctx (.formSubmit portalId formId fields pageUri) t with
  | (.success _, t1) => (.ok (), t1)
  | (.httpError status _, t1) =>
    (.error (.api ("Form submission failed with status " ++ toString status) status), t1)
  | (.netError, t1) => (.error .network, t1)

/-- `submitFormSubmission` from `hubspot.ts`: silently skipped when the
portal or form id is unconfigured; otherwise retried and fatal on
exhaustion. -/
def submitFormSubmission (ctx : HubSpotCtx) (formData : HubSpotFormData)
    (calculatorResults : CalculatorResults) (t : Trace) : Except HSError Unit × Trace :=
  match ctx.config.portalId, ctx.config.formId with
  | some portalId, some formId =>
    withRetry
      (fun _ => submitFormSubmissionOp ctx portalId formId
        (formFields formData calculatorResults) formData.metadataPageUri) 3 t
  | _, _ => (.ok (), t)

/-- `submitEmailOnlyFallback` from `hubspot.ts`: a single un-retried
best-effort `fetch`; returns `response.ok`, and `false` when the endpoint
is unconfigured or the fetch throws. -/
def submitEmailOnlyFallback (ctx : HubSpotCtx) (formData : HubSpotFormData) (t : Trace) :
    Bool × Trace :=
  match ctx.config.portalId, ctx.config.formId with
  | some portalId, some formId =>
    match formsFetch ctx (.fallbackSubmit portalId formId (fallbackFields formData)) t with
    | (.success _, t1) => (true, t1)
    | (.httpError _ _, t1) => (false, t1)
    | (.netError, t1) => (false, t1)
  | _, _ => (false, t)

/-- The `try` block of `submitToHubSpot`: upsert, then best-effort list
membership, then form submission.  The first uncaught error aborts the
sequence. -/
def primaryPipeline (ctx : HubSpotCtx) (formData : HubSpotFormData)
    (calculatorResults : CalculatorResults) (t : Trace) : Except HSError String × Trace :=
  match upsertContact ctx formData calculatorResults t with
  | (.error e, t1) => (.error e, t1)
  | (.ok contactId, t1) =>
    let t2 := addContactToList ctx contactId t1
    match submitFormSubmission ctx formData calculatorResults t2 with
    | (.error e, t3) => (.error e, t3)
    | (.ok _, t3) => (.ok contactId, t3)

/-- `submitToHubSpot` from `hubspot.ts`: the catch-all around the primary
pipeline; on any failure it attempts the email-only fallback once and
always returns a structured result. -/
def submitToHubSpot (ctx : HubSpotCtx) (formData : HubSpotFormData)
    (calculatorResults : CalculatorResults) (t : Trace) : SubmitToHubSpotResult × Trace :=
  match primaryPipeline ctx formData calculatorResults t with
  | (.ok contactId, t1) =>
    (⟨true, some contactId, false, "Contact saved to HubSpot successfully."⟩, t1)
  | (.error _, t1) =>
    match submitEmailOnlyFallback ctx formData t1 with
    | (fallbackSucceeded, t2) =>
      (⟨false, none, fallbackSucceeded,
        if fallbackSucceeded then
          "We saved your email while we resolve a HubSpot connection hiccup."
        else
          "We could not save your details. Please try again later or reach out to hello@churnguard.ai."⟩,
        t2)

/-- `fetchContactDetails` from `hubspot.ts`. -/
def fetchContactDetails (ctx : HubSpotCtx) (contactId : String) (t : Trace) :
    Except HSError ApiPayload × Trace :=
  withRetry (fun _ => hubspotRequest ctx (.getContactDetails contactId)) 3 t

/-- The deal name derivation of `createHubSpotDeal`: company, else the
joined truthy name parts, else a generic prospect label (all via JS `||`). -/
def dealStoreName (contact : ApiPayload) : String :=
  jsOr (contact.company.getD "")
    (jsOr (String.intercalate " "
        (([contact.firstname, contact.lastname].filterMap id).filter (fun s => s ≠ "")))
      "ChurnGuard Prospect")

/-- The deal payload of `createHubSpotDeal`:
`amount = annualRevenueLost * 0.25 * 3`, associated to the contact with
HubSpot-defined association type 3. -/
def dealPropertiesFor (contact : ApiPayload) (calculatorResults : CalculatorResults) :
    DealProperties :=
  ⟨dealStoreName contact ++ " - ChurnGuard Opportunity",
    calculatorResults.annualRevenueLost * 0.25 * 3,
    "Sales Pipeline", "appointmentscheduled", 3, "HUBSPOT_DEFINED"⟩

/-- `createHubSpotDeal` from `hubspot.ts`: skipped (no request) unless
`annualRevenueLost > 50,000`; all failures are caught and reported in the
returned record. -/
def createHubSpotDeal (ctx : HubSpotCtx) (contactId : String)
    (calculatorResults : CalculatorResults) (t : Trace) : CreateDealResult × Trace :=
  if calculatorResults.annualRevenueLost ≤ 50000 then
    (⟨false, none, "Annual revenue lost below threshold. Deal creation skipped."⟩, t)
  else
    match fetchContactDetails ctx contactId t with
    | (.error _, t1) => (⟨false, none, "Unable to create a HubSpot deal at this time."⟩, t1)
    | (.ok contact, t1) =>
      match withRetry
          (fun _ => hubspotRequest ctx (.createDeal (dealPropertiesFor contact calculatorResults) contactId))
          3 t1 with
      | (.ok payload, t2) => (⟨true, some payload.id, "Deal created successfully."⟩, t2)
      | (.error _, t2) => (⟨false, none, "Unable to create a HubSpot deal at this time."⟩, t2)

/-- The `Except`-level view of one request outcome (with the token
configured): what `hubspotRequest` returns for it. -/
def outcomeResult : CallOutcome → Except HSError ApiPayload
  | .success payload => .ok payload
  | .httpError status message => .error (.api message status)
  | .netError => .error .network

/-- Whether `shouldRetry` accepts the error produced by an outcome. -/
def retryableOutcome : CallOutcome → Bool
  | .success _ => false
  | .httpError status message => shouldRetry (.api message status)
  | .netError => shouldRetry .network

/-- The backoff sleeps performed before attempts `2, …, k`:
`[500, 1000, …]`. -/
def backoffs (k : ℕ) : List ℕ := (List.range k).map (fun j => 500 * 2 ^ j)

/-! ## Projection-engine lemmas -/

lemma applyGrossMargin_eq (value : ℚ) (gm : Option ℚ) :
    applyGrossMargin value gm = value * marginFactor gm := by
  cases gm <;> simp [applyGrossMargin, marginFactor, toDecimal]

lemma calculateAnnualRevenueLost_eq (i : CalculatorInputs) :
    calculateAnnualRevenueLost i =
      marginFactor i.grossMargin *
        (i.numberOfCustomers * (i.averageOrderValue * i.purchaseFrequency)) *
        (i.churnRate / 100) := by
  simp only [calculateAnnualRevenueLost, applyGrossMargin_eq, toDecimal]
  ring

lemma ltvGo_eq_projTargets (i : CalculatorInputs) (years : List ℕ) (fuel : ℕ) :
    ∀ (y : ℕ) (acc : List (ℕ × ℚ)),
      ltvGo i years (i.averageOrderValue * i.purchaseFrequency) fuel (y + 1)
          (ltvState i y).1 (ltvState i y).2 acc =
        acc ++ projTargets i years (y + 1) fuel := by
  induction fuel with
  | zero => intro y acc; simp [ltvGo, projTargets]
  | succ fuel ih =>
    intro y acc
    have hstate :
        (ltvState i y).1 - (ltvState i y).1 * toDecimal i.churnRate = (ltvState i (y + 1)).1 ∧
        (ltvState i y).2 +
            applyGrossMargin ((ltvState i y).1 * toDecimal i.churnRate *
              (i.averageOrderValue * i.purchaseFrequency)) i.grossMargin =
          (ltvState i (y + 1)).2 := by
      constructor <;> simp [ltvState]
    by_cases hy : y + 1 ∈ years
    · simp only [ltvGo, projTargets, if_pos hy, hstate.1, hstate.2]
      rw [ih (y + 1) (acc ++ [(y + 1, (ltvState i (y + 1)).2)])]
      simp
    · simp only [ltvGo, projTargets, if_neg hy, hstate.1, hstate.2]
      rw [ih (y + 1) acc]
      simp

lemma calculateLifetimeValueLost_eq_ok (i : CalculatorInputs) (years : List ℕ)
    (h : years ≠ []) :
    calculateLifetimeValueLost i years = .ok (projTargets i years 1 (years.foldl max 0)) := by
  have h0 : ltvState i 0 = (i.numberOfCustomers, 0) := rfl
  simp only [calculateLifetimeValueLost, if_neg h]
  have := ltvGo_eq_projTargets i years (years.foldl max 0) 0 []
  rw [h0] at this
  simp only [this, List.nil_append]

lemma projTargets_lookup (i : CalculatorInputs) (years : List ℕ) (fuel : ℕ) :
    ∀ (start z : ℕ), z ∈ years → start ≤ z → z < start + fuel →
      (projTargets i years start fuel).lookup z = some (ltvState i z).2 := by
  induction fuel with
  | zero => intro start z _ h1 h2; omega
  | succ fuel ih =>
    intro start z hz h1 h2
    rcases eq_or_ne z start with rfl | hne
    · simp [projTargets, if_pos hz, List.lookup]
    · have hstep : start + 1 ≤ z := by omega
      have := ih (start + 1) z hz hstep (by omega)
      have hbeq : (z == start) = false := by simp [hne]
      by_cases hs : start ∈ years
      · simpa [projTargets, if_pos hs, List.lookup, hbeq] using this
      · simpa [projTargets, if_neg hs] using this

/-- The three-year cumulative lifetime value lost, in closed form. -/
lemma ltvAt_three (i : CalculatorInputs) :
    ltvAt i [3] 3 =
      marginFactor i.grossMargin *
        (i.numberOfCustomers * (i.averageOrderValue * i.purchaseFrequency)) *
        (1 - (1 - i.churnRate / 100) ^ 3) := by
  have hok := calculateLifetimeValueLost_eq_ok i [3] (by simp)
  have hmax : ([3] : List ℕ).foldl max 0 = 3 := by simp
  rw [hmax] at hok
  have hlk := projTargets_lookup i [3] 3 1 3 (by simp) (by omega) (by omega)
  simp only [ltvAt, hok, hlk, Option.getD_some]
  simp only [ltvState, toDecimal, applyGrossMargin_eq]
  ring

lemma marginFactor_nonneg {gm : Option ℚ} (hg : ∀ g ∈ gm, 0 ≤ g ∧ g ≤ 100) :
    0 ≤ marginFactor gm := by
  cases gm with
  | none => norm_num [marginFactor]
  | some g =>
    have := hg g rfl
    simp only [marginFactor]
    exact div_nonneg this.1 (by norm_num)

lemma marginFactor_pos {gm : Option ℚ} (hg : ∀ g ∈ gm, 0 < g ∧ g ≤ 100) :
    0 < marginFactor gm := by
  cases gm with
  | none => norm_num [marginFactor]
  | some g =>
    have := hg g rfl
    simp only [marginFactor]
    exact div_pos this.1 (by norm_num)

lemma ltvState_fst_nonneg (i : CalculatorInputs) (hN : 0 ≤ i.numberOfCustomers)
    (hc0 : 0 ≤ i.churnRate) (hc1 : i.churnRate ≤ 100) :
    ∀ y, 0 ≤ (ltvState i y).1 := by
  intro y
  induction y with
  | zero => simpa [ltvState] using hN
  | succ y ih =>
    simp only [ltvState, toDecimal]
    nlinarith [ih]

lemma ltvState_snd_le_succ (i : CalculatorInputs) (hA : 0 ≤ i.averageOrderValue)
    (hF : 0 ≤ i.purchaseFrequency) (hN : 0 ≤ i.numberOfCustomers)
    (hc0 : 0 ≤ i.churnRate) (hc1 : i.churnRate ≤ 100)
    (hm : 0 ≤ marginFactor i.grossMargin) (y : ℕ) :
    (ltvState i y).2 ≤ (ltvState i (y + 1)).2 := by
  have hrem := ltvState_fst_nonneg i hN hc0 hc1 y
  simp only [ltvState, toDecimal, applyGrossMargin_eq]
  nlinarith [mul_nonneg (mul_nonneg (mul_nonneg hrem (by positivity : 0 ≤ i.churnRate / 100))
    (mul_nonneg hA hF)) hm]

lemma ltvState_snd_mono (i : CalculatorInputs) (hA : 0 ≤ i.averageOrderValue)
    (hF : 0 ≤ i.purchaseFrequency) (hN : 0 ≤ i.numberOfCustomers)
    (hc0 : 0 ≤ i.churnRate) (hc1 : i.churnRate ≤ 100)
    (hm : 0 ≤ marginFactor i.grossMargin) {y y2 : ℕ} (h : y ≤ y2) :
    (ltvState i y).2 ≤ (ltvState i y2).2 := by
  induction h with
  | refl => exact le_rfl
  | step h ih => exact le_trans ih (ltvState_snd_le_succ i hA hF hN hc0 hc1 hm _)

lemma ltvState_zero_churn (i : CalculatorInputs) (h : i.churnRate = 0) :
    ∀ y, (ltvState i y).2 = 0 := by
  have key : ∀ y, (ltvState i y).1 = i.numberOfCustomers ∧ (ltvState i y).2 = 0 := by
    intro y
    induction y with
    | zero => simp [ltvState]
    | succ y ih => simp [ltvState, toDecimal, h, ih.1, ih.2, applyGrossMargin_eq]
  exact fun y => (key y).2

lemma foldl_max_init (l : List ℕ) : ∀ b, b ≤ l.foldl max b := by
  induction l with
  | nil => intro b; exact le_rfl
  | cons x t ih => intro b; exact le_trans (le_max_left b x) (ih (max b x))

lemma le_foldl_max (l : List ℕ) (a : ℕ) (h : a ∈ l) : ∀ b, a ≤ l.foldl max b := by
  induction l with
  | nil => cases h
  | cons x t ih =>
    intro b
    rcases List.mem_cons.1 h with rfl | hmem
    · exact le_trans (le_max_right b a) (foldl_max_init t (max b a))
    · exact ih hmem (max b x)

/-- Closed form of the three reduction scenarios. -/
lemma calculateChurnReductionScenarios_eq (i : CalculatorInputs) :
    calculateChurnReductionScenarios i =
      [10, 25, 50].map (fun r =>
        ⟨r,
          marginFactor i.grossMargin *
              (i.numberOfCustomers * (i.averageOrderValue * i.purchaseFrequency)) *
              (i.churnRate / 100) * (r / 100),
          marginFactor i.grossMargin *
              (i.numberOfCustomers * (i.averageOrderValue * i.purchaseFrequency)) *
              ((1 - i.churnRate * (1 - r / 100) / 100) ^ 3 - (1 - i.churnRate / 100) ^ 3)⟩) := by
  simp only [calculateChurnReductionScenarios, List.map_cons, List.map_nil,
    calculateAnnualRevenueLost_eq, ltvAt_three, setChurnRate, toDecimal, List.cons.injEq,
    ChurnScenario.mk.injEq]
  norm_num
  refine ⟨⟨by ring, by ring⟩, ⟨by ring, by ring⟩, by ring, by ring⟩

/-! ## Claims about the projection engine -/

/-- C1 (amended): for valid inputs with `churnRate > 0` and a positive
gross margin whenever one is present, the three scenarios returned by
`calculateChurnReductionScenarios` have non-negative savings, and both
savings figures are strictly increasing with the reduction percentage. -/
theorem churnReductionScenariosStrictMono (i : CalculatorInputs)
    (hA : 0 < i.averageOrderValue) (hN : 1 ≤ i.numberOfCustomers)
    (hF : 1 ≤ i.purchaseFrequency) (hc : 0 < i.churnRate) (hc100 : i.churnRate ≤ 100)
    (hg : ∀ g ∈ i.grossMargin, 0 < g ∧ g ≤ 100) :
    ∃ a10 a25 a50 t10 t25 t50 : ℚ,
      calculateChurnReductionScenarios i =
        [⟨10, a10, t10⟩, ⟨25, a25, t25⟩, ⟨50, a50, t50⟩] ∧
      0 ≤ a10 ∧ a10 < a25 ∧ a25 < a50 ∧ 0 ≤ t10 ∧ t10 < t25 ∧ t25 < t50 := by
  have hm := marginFactor_pos hg
  have hN0 : (0 : ℚ) < i.numberOfCustomers := lt_of_lt_of_le one_pos hN
  have hF0 : (0 : ℚ) < i.purchaseFrequency := lt_of_lt_of_le one_pos hF
  have hP : 0 < marginFactor i.grossMargin *
      (i.numberOfCustomers * (i.averageOrderValue * i.purchaseFrequency)) :=
    mul_pos hm (mul_pos hN0 (mul_pos hA hF0))
  have hPc := mul_pos hP hc
  have hb : (0 : ℚ) ≤ 1 - i.churnRate / 100 := by linarith
  have hb10 : (0 : ℚ) ≤ 1 - i.churnRate * (1 - 10 / 100) / 100 := by linarith
  have hb25 : (0 : ℚ) ≤ 1 - i.churnRate * (1 - 25 / 100) / 100 := by linarith
  have hle10 : (1 - i.churnRate / 100 : ℚ) ≤ 1 - i.churnRate * (1 - 10 / 100) / 100 := by
    linarith
  have hlt25 : (1 - i.churnRate * (1 - 10 / 100) / 100 : ℚ) <
      1 - i.churnRate * (1 - 25 / 100) / 100 := by linarith
  have hlt50 : (1 - i.churnRate * (1 - 25 / 100) / 100 : ℚ) <
      1 - i.churnRate * (1 - 50 / 100) / 100 := by linarith
  have hcube10 : ((1 - i.churnRate / 100 : ℚ)) ^ 3 ≤
      (1 - i.churnRate * (1 - 10 / 100) / 100) ^ 3 := pow_le_pow_left₀ hb hle10 3
  have hcube25 : ((1 - i.churnRate * (1 - 10 / 100) / 100 : ℚ)) ^ 3 <
      (1 - i.churnRate * (1 - 25 / 100) / 100) ^ 3 :=
    pow_lt_pow_left₀ hlt25 hb10 (by norm_num)
  have hcube50 : ((1 - i.churnRate * (1 - 25 / 100) / 100 : ℚ)) ^ 3 <
      (1 - i.churnRate * (1 - 50 / 100) / 100) ^ 3 :=
    pow_lt_pow_left₀ hlt50 hb25 (by norm_num)
  rw [calculateChurnReductionScenarios_eq]
  simp only [List.map_cons, List.map_nil]
  refine ⟨_, _, _, _, _, _, rfl, ?_, ?_, ?_, ?_, ?_, ?_⟩
  · nlinarith [hPc]
  · nlinarith [hPc]
  · nlinarith [hPc]
  · nlinarith [mul_le_mul_of_nonneg_left hcube10 (le_of_lt hP)]
  · nlinarith [mul_lt_mul_of_pos_left hcube25 hP]
  · nlinarith [mul_lt_mul_of_pos_left hcube50 hP]

/-- Witness for C1 (amended) at the specification's worked example. -/
theorem churnReductionScenariosStrictMono_witness :
    ∃ a10 a25 a50 t10 t25 t50 : ℚ,
      calculateChurnReductionScenarios egInputs =
        [⟨10, a10, t10⟩, ⟨25, a25, t25⟩, ⟨50, a50, t50⟩] ∧
      0 ≤ a10 ∧ a10 < a25 ∧ a25 < a50 ∧ 0 ≤ t10 ∧ t10 < t25 ∧ t25 < t50 :=
  churnReductionScenariosStrictMono egInputs (by norm_num [egInputs]) (by norm_num [egInputs])
    (by norm_num [egInputs]) (by norm_num [egInputs]) (by norm_num [egInputs])
    (by simp [egInputs])

/-- C1 counterexample: at `churnRate = 0` — allowed by the claim's validity
range `churnRate ∈ [0,100]` — all savings are `0`, so the savings are not
strictly increasing with the reduction percentage. -/
theorem churnReductionScenariosNotStrictAtZeroChurn :
    (0 < zeroChurnInputs.averageOrderValue ∧ 1 ≤ zeroChurnInputs.numberOfCustomers ∧
      1 ≤ zeroChurnInputs.purchaseFrequency ∧ 0 ≤ zeroChurnInputs.churnRate ∧
      zeroChurnInputs.churnRate ≤ 100 ∧ zeroChurnInputs.grossMargin = none ∧
      zeroChurnInputs.customerAcquisitionCost = none) ∧
    calculateChurnReductionScenarios zeroChurnInputs =
      [⟨10, 0, 0⟩, ⟨25, 0, 0⟩, ⟨50, 0, 0⟩] ∧
    ¬ (((calculateChurnReductionScenarios zeroChurnInputs).getD 2 ⟨0, 0, 0⟩).annualSavings >
        ((calculateChurnReductionScenarios zeroChurnInputs).getD 1 ⟨0, 0, 0⟩).annualSavings) ∧
    ¬ (((calculateChurnReductionScenarios zeroChurnInputs).getD 2 ⟨0, 0, 0⟩).threeYearSavings >
        ((calculateChurnReductionScenarios zeroChurnInputs).getD 1 ⟨0, 0, 0⟩).threeYearSavings) := by
  have hsc : calculateChurnReductionScenarios zeroChurnInputs =
      [⟨10, 0, 0⟩, ⟨25, 0, 0⟩, ⟨50, 0, 0⟩] := by
    rw [calculateChurnReductionScenarios_eq]
    norm_num [zeroChurnInputs, marginFactor]
  refine ⟨by norm_num [zeroChurnInputs], hsc, ?_, ?_⟩ <;> rw [hsc] <;> norm_num [List.getD]

/-- C3: on the worked example, the annual revenue lost is `80000`, the
lifetime value lost at horizon 3 is `195200`, and the year-by-year
simulation loses 200, 160 and 128 customers worth `$400` each. -/
theorem exampleProjection :
    calculateAnnualRevenueLost egInputs = 80000 ∧
    calculateLifetimeValueLost egInputs [1, 3, 5] =
      .ok [(1, 80000), (3, 195200), (5, 268928)] ∧
    ([((1 : ℕ), (80000 : ℚ)), (3, 195200), (5, 268928)].lookup 3 = some 195200) ∧
    (ltvState egInputs 0).1 - (ltvState egInputs 1).1 = 200 ∧
    (ltvState egInputs 1).1 - (ltvState egInputs 2).1 = 160 ∧
    (ltvState egInputs 2).1 - (ltvState egInputs 3).1 = 128 ∧
    egInputs.averageOrderValue * egInputs.purchaseFrequency = 400 ∧
    ((200 : ℚ) + 160 + 128) * 400 = 195200 := by
  refine ⟨?_, ?_, by simp [List.lookup], ?_, ?_, ?_, by norm_num [egInputs], by norm_num⟩
  · norm_num [calculateAnnualRevenueLost, egInputs, toDecimal, applyGrossMargin]
  · simp only [calculateLifetimeValueLost]
    norm_num [ltvGo, egInputs, toDecimal, applyGrossMargin]
    intro h
    simp at h
  all_goals norm_num [ltvState, egInputs, toDecimal, applyGrossMargin]

/-- C6: `calculateAnnualRevenueLost` equals
`numberOfCustomers * (churnRate/100) * averageOrderValue * purchaseFrequency`,
scaled by `grossMargin/100` exactly when a margin is present, and is linear
(additive and homogeneous) in each of the four factors, scaling
proportionally with the gross margin. -/
theorem annualRevenueLostLinear (aov n f c : ℚ) (cac gm : Option ℚ) :
    calculateAnnualRevenueLost ⟨aov, n, f, c, cac, none⟩ = n * (c / 100) * aov * f ∧
    (∀ g, calculateAnnualRevenueLost ⟨aov, n, f, c, cac, some g⟩ =
      n * (c / 100) * aov * f * (g / 100)) ∧
    (∀ t, calculateAnnualRevenueLost ⟨aov, t * n, f, c, cac, gm⟩ =
      t * calculateAnnualRevenueLost ⟨aov, n, f, c, cac, gm⟩) ∧
    (∀ t, calculateAnnualRevenueLost ⟨t * aov, n, f, c, cac, gm⟩ =
      t * calculateAnnualRevenueLost ⟨aov, n, f, c, cac, gm⟩) ∧
    (∀ t, calculateAnnualRevenueLost ⟨aov, n, t * f, c, cac, gm⟩ =
      t * calculateAnnualRevenueLost ⟨aov, n, f, c, cac, gm⟩) ∧
    (∀ t, calculateAnnualRevenueLost ⟨aov, n, f, t * c, cac, gm⟩ =
      t * calculateAnnualRevenueLost ⟨aov, n, f, c, cac, gm⟩) ∧
    (∀ n1 n2, calculateAnnualRevenueLost ⟨aov, n1 + n2, f, c, cac, gm⟩ =
      calculateAnnualRevenueLost ⟨aov, n1, f, c, cac, gm⟩ +
        calculateAnnualRevenueLost ⟨aov, n2, f, c, cac, gm⟩) ∧
    (∀ c1 c2, calculateAnnualRevenueLost ⟨aov, n, f, c1 + c2, cac, gm⟩ =
      calculateAnnualRevenueLost ⟨aov, n, f, c1, cac, gm⟩ +
        calculateAnnualRevenueLost ⟨aov, n, f, c2, cac, gm⟩) ∧
    (∀ t g, calculateAnnualRevenueLost ⟨aov, n, f, c, cac, some (t * g)⟩ =
      t * calculateAnnualRevenueLost ⟨aov, n, f, c, cac, some g⟩) := by
  refine ⟨?_, ?_, ?_, ?_, ?_, ?_, ?_, ?_, ?_⟩ <;>
    (intros; cases gm <;> simp only [calculateAnnualRevenueLost_eq, marginFactor] <;> ring)

/-- C7: for valid inputs and a non-empty list of positive horizons, the
lifetime value lost mapping is defined at every requested horizon and is
non-decreasing in the horizon; with `churnRate = 0` every requested horizon
maps to `0`. -/
theorem lifetimeValueLostMonotone (i : CalculatorInputs)
    (hA : 0 < i.averageOrderValue) (hN : 1 ≤ i.numberOfCustomers)
    (hF : 1 ≤ i.purchaseFrequency) (hc0 : 0 ≤ i.churnRate) (hc1 : i.churnRate ≤ 100)
    (hg : ∀ g ∈ i.grossMargin, 0 ≤ g ∧ g ≤ 100)
    (years : List ℕ) (hne : years ≠ []) (hpos : ∀ y ∈ years, 1 ≤ y) :
    ∃ l, calculateLifetimeValueLost i years = .ok l ∧
      (∀ y ∈ years, ∀ y2 ∈ years, y ≤ y2 →
        ∃ v v2, l.lookup y = some v ∧ l.lookup y2 = some v2 ∧ v ≤ v2) ∧
      (i.churnRate = 0 → ∀ y ∈ years, l.lookup y = some 0) := by
  have hm := marginFactor_nonneg hg
  refine ⟨_, calculateLifetimeValueLost_eq_ok i years hne, ?_, ?_⟩
  · intro y hy y2 hy2 hle
    have h1 : 1 ≤ y := hpos y hy
    have h12 : 1 ≤ y2 := hpos y2 hy2
    have hmax : y ≤ years.foldl max 0 := le_foldl_max years y hy 0
    have hmax2 : y2 ≤ years.foldl max 0 := le_foldl_max years y2 hy2 0
    refine ⟨_, _, projTargets_lookup i years _ 1 y hy h1 (by omega),
      projTargets_lookup i years _ 1 y2 hy2 h12 (by omega), ?_⟩
    exact ltvState_snd_mono i (le_of_lt hA) (by linarith) (by linarith) hc0 hc1 hm hle
  · intro h0 y hy
    have h1 : 1 ≤ y := hpos y hy
    have hmax : y ≤ years.foldl max 0 := le_foldl_max years y hy 0
    rw [projTargets_lookup i years _ 1 y hy h1 (by omega), ltvState_zero_churn i h0 y]

/-- Witness for C7 at the zero-churn example with horizons `[1, 3, 5]`. -/
theorem lifetimeValueLostMonotone_witness :
    ∃ l, calculateLifetimeValueLost zeroChurnInputs [1, 3, 5] = .ok l ∧
      (∀ y ∈ [1, 3, 5], ∀ y2 ∈ [1, 3, 5], y ≤ y2 →
        ∃ v v2, l.lookup y = some v ∧ l.lookup y2 = some v2 ∧ v ≤ v2) ∧
      (zeroChurnInputs.churnRate = 0 → ∀ y ∈ [1, 3, 5], l.lookup y = some 0) :=
  lifetimeValueLostMonotone zeroChurnInputs (by norm_num [zeroChurnInputs])
    (by norm_num [zeroChurnInputs]) (by norm_num [zeroChurnInputs])
    (by norm_num [zeroChurnInputs]) (by norm_num [zeroChurnInputs])
    (by simp [zeroChurnInputs]) [1, 3, 5] (by simp) (by decide)

/-! ## Sync-pipeline lemmas -/

lemma hubspotRequest_eq {ctx : HubSpotCtx} {tok : String}
    (htok : ctx.config.accessToken = some tok) (c : HubSpotCall) (t : Trace) :
    hubspotRequest ctx c t = (outcomeResult (ctx.oracle t.calls.length), addCall c t) := by
  simp only [hubspotRequest, htok]
  cases h : ctx.oracle t.calls.length <;> simp [outcomeResult]

lemma outcome_split (o : CallOutcome) :
    (∃ p, o = .success p ∧ outcomeResult o = .ok p ∧ retryableOutcome o = false) ∨
    (∃ e, outcomeResult o = .error e ∧ shouldRetry e = retryableOutcome o) := by
  cases o with
  | success p => exact .inl ⟨p, rfl, rfl, rfl⟩
  | httpError s m => exact .inr ⟨.api m s, rfl, rfl⟩
  | netError => exact .inr ⟨.network, rfl, rfl⟩

lemma withRetry_ok_first {α : Type} (op : ℕ → Trace → Except HSError α × Trace) (t : Trace)
    (v : α) (t1 : Trace) (h : op 1 t = (.ok v, t1)) : withRetry op 3 t = (.ok v, t1) := by
  norm_num [withRetry, withRetryGo, h]

lemma backoffs_zero : backoffs 0 = [] := rfl

lemma backoffs_one : backoffs 1 = [500] := rfl

lemma backoffs_two : backoffs 2 = [500, 1000] := rfl

/-- Full characterisation of `withRetry` around `hubspotRequest` (token
configured): some `1 ≤ k ≤ 3` requests are issued, the result is the
`k`-th outcome, the backoff sleeps are `500·2^(attempt-1)` ms, every
non-final outcome was a retryable failure, and the run stops early only on
a non-retryable outcome. -/
lemma withRetry_request (ctx : HubSpotCtx) (c : HubSpotCall) (t : Trace) (tok : String)
    (htok : ctx.config.accessToken = some tok) :
    ∃ k, 1 ≤ k ∧ k ≤ 3 ∧
      withRetry (fun _ => hubspotRequest ctx c) 3 t =
        (outcomeResult (ctx.oracle (t.calls.length + (k - 1))),
          ⟨t.calls ++ List.replicate k c, t.sleeps ++ backoffs (k - 1)⟩) ∧
      (∀ j, j < k - 1 → retryableOutcome (ctx.oracle (t.calls.length + j)) = true) ∧
      (retryableOutcome (ctx.oracle (t.calls.length + (k - 1))) = false ∨ k = 3) := by
  have hreq := hubspotRequest_eq htok c
  rcases outcome_split (ctx.oracle t.calls.length) with ⟨p0, ho0, hr0, hf0⟩ | ⟨e0, he0, hs0⟩
  · refine ⟨1, le_rfl, by norm_num, ?_, fun j hj => absurd hj (by omega), Or.inl hf0⟩
    norm_num [withRetry, withRetryGo, hreq, hr0, addCall, backoffs_zero, List.replicate]
  · by_cases hre : shouldRetry e0 = true
    · have hrtrue : retryableOutcome (ctx.oracle t.calls.length) = true := by rw [← hs0]; exact hre
      rcases outcome_split (ctx.oracle (t.calls.length + 1)) with ⟨p1, ho1, hr1, hf1⟩ | ⟨e1, he1, hs1⟩
      · refine ⟨2, by norm_num, by norm_num, ?_, ?_, Or.inl hf1⟩
        · norm_num [withRetry, withRetryGo, hreq, he0, hre, hr1, addCall, addSleep,
            backoffs_one, List.replicate]
        · intro j hj
          have : j = 0 := by omega
          subst this
          exact hrtrue
      · by_cases hre1 : shouldRetry e1 = true
        · have hrtrue1 : retryableOutcome (ctx.oracle (t.calls.length + 1)) = true := by
            rw [← hs1]; exact hre1
          refine ⟨3, by norm_num, le_rfl, ?_, ?_, Or.inr rfl⟩
          · rcases outcome_split (ctx.oracle (t.calls.length + 2)) with ⟨p2, ho2, hr2, hf2⟩ |
              ⟨e2, he2, hs2⟩
            · norm_num [withRetry, withRetryGo, hreq, he0, hre, he1, hre1, hr2, addCall,
                addSleep, backoffs_two, List.replicate]
            · norm_num [withRetry, withRetryGo, hreq, he0, hre, he1, hre1, he2, addCall,
                addSleep, backoffs_two, List.replicate]
          · intro j hj
            have : j = 0 ∨ j = 1 := by omega
            rcases this with rfl | rfl
            · exact hrtrue
            · exact hrtrue1
        · have hrf1 : retryableOutcome (ctx.oracle (t.calls.length + 1)) = false := by
            rw [← hs1]; revert hre1; cases shouldRetry e1 <;> simp
          refine ⟨2, by norm_num, by norm_num, ?_, ?_, Or.inl hrf1⟩
          · have hsf1 : shouldRetry e1 = false := by revert hre1; cases shouldRetry e1 <;> simp
            norm_num [withRetry, withRetryGo, hreq, he0, hre, he1, hsf1, addCall, addSleep,
              backoffs_one, List.replicate]
          · intro j hj
            have : j = 0 := by omega
            subst this
            exact hrtrue
    · have hrf : retryableOutcome (ctx.oracle t.calls.length) = false := by
        rw [← hs0]; revert hre; cases shouldRetry e0 <;> simp
      have hsf : shouldRetry e0 = false := by revert hre; cases shouldRetry e0 <;> simp
      refine ⟨1, le_rfl, by norm_num, ?_, fun j hj => absurd hj (by omega), Or.inl hrf⟩
      norm_num [withRetry, withRetryGo, hreq, he0, hsf, addCall, backoffs_zero, List.replicate]

/-! ## Claims about the sync pipeline -/

/-- C4: the retry wrapper issues at most 3 requests; each retry is
preceded by a `500·2^(attempt-1)` ms backoff (`[500, 1000]`); every
non-final attempt failed retryably (HTTP 429/5xx or a network error);
a non-retryable failure (any other 4xx, or the non-HTTP missing-token
error, which aborts before any request) terminates immediately with that
error; and two 503s followed by a success yield an overall success after
exactly 3 requests and sleeps `[500, 1000]`. -/
theorem retryPolicy (ctx : HubSpotCtx) (call : HubSpotCall) (t : Trace) :
    (∀ tok, ctx.config.accessToken = some tok →
      ∃ k, 1 ≤ k ∧ k ≤ 3 ∧
        withRetry (fun _ => hubspotRequest ctx call) 3 t =
          (outcomeResult (ctx.oracle (t.calls.length + (k - 1))),
            ⟨t.calls ++ List.replicate k call, t.sleeps ++ backoffs (k - 1)⟩) ∧
        (∀ j, j < k - 1 → retryableOutcome (ctx.oracle (t.calls.length + j)) = true) ∧
        (retryableOutcome (ctx.oracle (t.calls.length + (k - 1))) = false ∨ k = 3)) ∧
    (ctx.config.accessToken = none →
      withRetry (fun _ => hubspotRequest ctx call) 3 t =
        (.error (.other "HubSpot access token is not configured."), t)) ∧
    (∀ m1 m2 p, ctx.oracle t.calls.length = .httpError 503 m1 →
      ctx.oracle (t.calls.length + 1) = .httpError 503 m2 →
      ctx.oracle (t.calls.length + 2) = .success p →
      ctx.config.accessToken ≠ none →
      withRetry (fun _ => hubspotRequest ctx call) 3 t =
        (.ok p, ⟨t.calls ++ [call, call, call], t.sleeps ++ [500, 1000]⟩)) := by
  refine ⟨fun tok htok => withRetry_request ctx call t tok htok, ?_, ?_⟩
  · intro hnone
    norm_num [withRetry, withRetryGo, hubspotRequest, hnone, shouldRetry]
  · intro m1 m2 p h0 h1 h2 htok
    obtain ⟨tok, htok⟩ := Option.ne_none_iff_exists'.1 htok
    obtain ⟨k, hk1, hk3, heq, hpre, hterm⟩ := withRetry_request ctx call t tok htok
    have hr0 : retryableOutcome (ctx.oracle t.calls.length) = true := by
      simp [h0, retryableOutcome, shouldRetry]
    have hr1 : retryableOutcome (ctx.oracle (t.calls.length + 1)) = true := by
      simp [h1, retryableOutcome, shouldRetry]
    have hk : k = 3 := by
      rcases hterm with hterm | hterm
      · interval_cases k
        · rw [Nat.sub_self, Nat.add_zero, hr0] at hterm; cases hterm
        · rw [show (2 : ℕ) - 1 = 1 from rfl, hr1] at hterm; cases hterm
        · rfl
      · exact hterm
    subst hk
    rw [heq]
    simp [h2, outcomeResult, backoffs_two, List.replicate]

/-- Witness context for the retry policy: two 503s, then success. -/
def egPayload : ApiPayload := ⟨"42", none, none, none⟩

/-- A remote that fails twice with 503 and then succeeds, with the access
token configured. -/
def retryCtx : HubSpotCtx :=
  ⟨fun n => if n = 0 then .httpError 503 "Service Unavailable"
    else if n = 1 then .httpError 503 "Service Unavailable"
    else .success egPayload,
    ⟨some "token", none, none, none, none⟩, "2026-10-11T00:00:00.000Z"⟩

/-- Witness for C4: the 503/503/success schedule succeeds after exactly
three requests with sleeps 500 ms and 1000 ms. -/
theorem retryPolicy_witness :
    withRetry (fun _ => hubspotRequest retryCtx (.lookupContact "user@example.com")) 3
        emptyTrace =
      (.ok egPayload,
        ⟨[.lookupContact "user@example.com", .lookupContact "user@example.com",
          .lookupContact "user@example.com"], [500, 1000]⟩) := by
  have h := (retryPolicy retryCtx (.lookupContact "user@example.com") emptyTrace).2.2
    "Service Unavailable" "Service Unavailable" egPayload rfl rfl rfl (by simp [retryCtx])
  simpa [emptyTrace] using h

lemma lookupContactOp_notFound {ctx : HubSpotCtx} {tok : String}
    (htok : ctx.config.accessToken = some tok) (email : String) (t : Trace) (m : String)
    (h : ctx.oracle t.calls.length = .httpError 404 m) :
    lookupContactOp ctx email t = (.ok none, addCall (.lookupContact email) t) := by
  simp [lookupContactOp, hubspotRequest_eq htok, h, outcomeResult]

lemma lookupContactOp_found {ctx : HubSpotCtx} {tok : String}
    (htok : ctx.config.accessToken = some tok) (email : String) (t : Trace)
    (payload : ApiPayload) (h : ctx.oracle t.calls.length = .success payload) :
    lookupContactOp ctx email t = (.ok (some payload), addCall (.lookupContact email) t) := by
  simp [lookupContactOp, hubspotRequest_eq htok, h, outcomeResult]

/-- C5: `upsertContact` looks the contact up under the trimmed, lowercased
email; a 404 on the lookup is treated as not-found and followed by a
creating `POST` (and no `PATCH`), while a successful lookup returning an
existing id is followed by a `PATCH` of that contact and no `POST` — so a
second run whose lookup returns the previously created contact updates
instead of duplicating. -/
theorem upsertContactIdempotent (ctx : HubSpotCtx) (formData : HubSpotFormData)
    (res : CalculatorResults) (t : Trace) (tok : String)
    (htok : ctx.config.accessToken = some tok)
    (hemail : ¬ jsToLower (jsTrim formData.email) = "") :
    (∀ m payload, ctx.oracle t.calls.length = .httpError 404 m →
      ctx.oracle (t.calls.length + 1) = .success payload →
      upsertContact ctx formData res t =
        (.ok payload.id,
          ⟨t.calls ++ [.lookupContact (jsToLower (jsTrim formData.email)),
            .createContact (buildContactProperties formData res ctx.nowIso)],
            t.sleeps⟩)) ∧
    (∀ existing r2, ctx.oracle t.calls.length = .success existing → existing.id ≠ "" →
      ctx.oracle (t.calls.length + 1) = .success r2 →
      upsertContact ctx formData res t =
        (.ok existing.id,
          ⟨t.calls ++ [.lookupContact (jsToLower (jsTrim formData.email)),
            .updateContact existing.id (buildContactProperties formData res ctx.nowIso)],
            t.sleeps⟩)) := by
  constructor
  · intro m payload h404 hok
    have hl := withRetry_ok_first (fun _ => lookupContactOp ctx (jsToLower (jsTrim formData.email)))
      t _ _ (lookupContactOp_notFound htok (jsToLower (jsTrim formData.email)) t m h404)
    have hc : hubspotRequest ctx
        (.createContact (buildContactProperties formData res ctx.nowIso))
        (addCall (.lookupContact (jsToLower (jsTrim formData.email))) t) =
        (.ok payload,
          addCall (.createContact (buildContactProperties formData res ctx.nowIso))
            (addCall (.lookupContact (jsToLower (jsTrim formData.email))) t)) := by
      rw [hubspotRequest_eq htok]
      simp [addCall, hok, outcomeResult]
    have h2 := withRetry_ok_first
      (fun _ => hubspotRequest ctx (.createContact (buildContactProperties formData res ctx.nowIso)))
      (addCall (.lookupContact (jsToLower (jsTrim formData.email))) t) _ _ hc
    simp only [upsertContact, if_neg hemail, hl, createContactPath, h2]
    simp [addCall]
  · intro existing r2 hfound hid hok2
    have hl := withRetry_ok_first (fun _ => lookupContactOp ctx (jsToLower (jsTrim formData.email)))
      t _ _ (lookupContactOp_found htok (jsToLower (jsTrim formData.email)) t existing hfound)
    have hu : hubspotRequest ctx
        (.updateContact existing.id (buildContactProperties formData res ctx.nowIso))
        (addCall (.lookupContact (jsToLower (jsTrim formData.email))) t) =
        (.ok r2,
          addCall (.updateContact existing.id (buildContactProperties formData res ctx.nowIso))
            (addCall (.lookupContact (jsToLower (jsTrim formData.email))) t)) := by
      rw [hubspotRequest_eq htok]
      simp [addCall, hok2, outcomeResult]
    have h2 := withRetry_ok_first
      (fun _ => hubspotRequest ctx
        (.updateContact existing.id (buildContactProperties formData res ctx.nowIso)))
      (addCall (.lookupContact (jsToLower (jsTrim formData.email))) t) _ _ hu
    simp only [upsertContact, if_neg hemail, hl, if_pos hid, h2]
    simp [addCall]

/-- The contact returned by the witness remote. -/
def contact123 : ApiPayload := ⟨"123", none, none, none⟩

/-- A remote that always answers success with `contact123`, with the token
configured. -/
def upsertCtx : HubSpotCtx :=
  ⟨fun _ => .success contact123, ⟨some "token", none, none, none, none⟩,
    "2026-10-11T00:00:00.000Z"⟩

/-- Witness form data whose raw email needs trimming and lowercasing. -/
def upsertFormData : HubSpotFormData :=
  ⟨" User@Example.com ", none, none, none, none, none, none, none, none, none⟩

/-- Witness calculator results. -/
def upsertResults : CalculatorResults := ⟨80000, [], 0, []⟩

/-- Witness for C5: the second-run scenario — the lookup under
`"user@example.com"` finds contact `"123"`, and the pipeline issues a
`PATCH` (`updateContact`), not a `POST`. -/
theorem upsertContactIdempotent_witness :
    jsToLower (jsTrim upsertFormData.email) = "user@example.com" ∧
    upsertContact upsertCtx upsertFormData upsertResults emptyTrace =
      (.ok "123",
        ⟨[.lookupContact "user@example.com",
          .updateContact "123"
            (buildContactProperties upsertFormData upsertResults upsertCtx.nowIso)],
          []⟩) := by
  have hkey : jsToLower (jsTrim upsertFormData.email) = "user@example.com" := rfl
  have h := (upsertContactIdempotent upsertCtx upsertFormData upsertResults emptyTrace
    "token" rfl (by rw [hkey]; decide)).2 contact123 contact123 rfl (by decide) rfl
  refine ⟨hkey, ?_⟩
  simpa [emptyTrace, hkey, contact123] using h

/-- C2: `submitToHubSpot` always returns a structured result.  When the
primary pipeline succeeds, the result is a success record and no fallback
request is made.  When the primary pipeline fails, `success` is `false`
regardless of the fallback; with the forms endpoint configured exactly one
un-retried `fallbackSubmit` request is issued and `fallbackUsed` is `true`
exactly when that request succeeded; with it unconfigured nothing is issued
and `fallbackUsed` is `false`. -/
theorem submitToHubSpotContract (ctx : HubSpotCtx) (formData : HubSpotFormData)
    (res : CalculatorResults) (t : Trace) (r : SubmitToHubSpotResult) (t2 : Trace)
    (h : submitToHubSpot ctx formData res t = (r, t2)) :
    (∀ cid t1, primaryPipeline ctx formData res t = (.ok cid, t1) →
      r = ⟨true, some cid, false, "Contact saved to HubSpot successfully."⟩ ∧ t2 = t1) ∧
    (∀ e t1, primaryPipeline ctx formData res t = (.error e, t1) →
      r.success = false ∧ r.contactId = none ∧
      (∀ portalId formId, ctx.config.portalId = some portalId →
        ctx.config.formId = some formId →
        t2.calls = t1.calls ++ [.fallbackSubmit portalId formId (fallbackFields formData)] ∧
        t2.sleeps = t1.sleeps ∧
        (r.fallbackUsed = true ↔ ∃ p, ctx.oracle t1.calls.length = .success p)) ∧
      ((ctx.config.portalId = none ∨ ctx.config.formId = none) →
        t2 = t1 ∧ r.fallbackUsed = false)) := by
  constructor
  · intro cid t1 hp
    simp only [submitToHubSpot, hp] at h
    simp only [Prod.mk.injEq] at h
    exact ⟨h.1.symm, h.2.symm⟩
  · intro e t1 hp
    rcases hcp : ctx.config.portalId with _ | portalId
    · have hfb : submitEmailOnlyFallback ctx formData t1 = (false, t1) := by
        simp [submitEmailOnlyFallback, hcp]
      have hsub : submitToHubSpot ctx formData res t =
          (⟨false, none, false,
            "We could not save your details. Please try again later or reach out to hello@churnguard.ai."⟩,
            t1) := by
        simp [submitToHubSpot, hp, hfb]
      rw [h] at hsub
      injection hsub with hr ht
      subst hr
      subst ht
      refine ⟨rfl, rfl, ?_, fun _ => ⟨rfl, rfl⟩⟩
      intro pid fid hpid _
      exact Option.noConfusion hpid
    · rcases hcf : ctx.config.formId with _ | formId
      · have hfb : submitEmailOnlyFallback ctx formData t1 = (false, t1) := by
          simp [submitEmailOnlyFallback, hcp, hcf]
        have hsub : submitToHubSpot ctx formData res t =
            (⟨false, none, false,
              "We could not save your details. Please try again later or reach out to hello@churnguard.ai."⟩,
              t1) := by
          simp [submitToHubSpot, hp, hfb]
        rw [h] at hsub
        injection hsub with hr ht
        subst hr
        subst ht
        refine ⟨rfl, rfl, ?_, fun _ => ⟨rfl, rfl⟩⟩
        intro pid fid _ hfid
        exact Option.noConfusion hfid
      · rcases ho : ctx.oracle t1.calls.length with p | ⟨st, msg⟩ | _
        · have hfb : submitEmailOnlyFallback ctx formData t1 =
              (true, addCall (.fallbackSubmit portalId formId (fallbackFields formData)) t1) := by
            simp [submitEmailOnlyFallback, hcp, hcf, formsFetch, ho]
          have hsub : submitToHubSpot ctx formData res t =
              (⟨false, none, true,
                "We saved your email while we resolve a HubSpot connection hiccup."⟩,
                addCall (.fallbackSubmit portalId formId (fallbackFields formData)) t1) := by
            simp [submitToHubSpot, hp, hfb]
          rw [h] at hsub
          injection hsub with hr ht
          subst hr
          subst ht
          refine ⟨rfl, rfl, ?_, ?_⟩
          · intro pid fid hpid hfid
            cases hpid
            cases hfid
            exact ⟨by simp [addCall], by simp [addCall], fun _ => ⟨p, rfl⟩, fun _ => rfl⟩
          · intro habs
            rcases habs with habs | habs <;> exact Option.noConfusion habs
        · have hfb : submitEmailOnlyFallback ctx formData t1 =
              (false, addCall (.fallbackSubmit portalId formId (fallbackFields formData)) t1) := by
            simp [submitEmailOnlyFallback, hcp, hcf, formsFetch, ho]
          have hsub : submitToHubSpot ctx formData res t =
              (⟨false, none, false,
                "We could not save your details. Please try again later or reach out to hello@churnguard.ai."⟩,
                addCall (.fallbackSubmit portalId formId (fallbackFields formData)) t1) := by
            simp [submitToHubSpot, hp, hfb]
          rw [h] at hsub
          injection hsub with hr ht
          subst hr
          subst ht
          refine ⟨rfl, rfl, ?_, ?_⟩
          · intro pid fid hpid hfid
            cases hpid
            cases hfid
            refine ⟨by simp [addCall], by simp [addCall], ?_, ?_⟩
            · intro habs
              cases habs
            · rintro ⟨q, hq⟩
              cases hq
          · intro habs
            rcases habs with habs | habs <;> exact Option.noConfusion habs
        · have hfb : submitEmailOnlyFallback ctx formData t1 =
              (false, addCall (.fallbackSubmit portalId formId (fallbackFields formData)) t1) := by
            simp [submitEmailOnlyFallback, hcp, hcf, formsFetch, ho]
          have hsub : submitToHubSpot ctx formData res t =
              (⟨false, none, false,
                "We could not save your details. Please try again later or reach out to hello@churnguard.ai."⟩,
                addCall (.fallbackSubmit portalId formId (fallbackFields formData)) t1) := by
            simp [submitToHubSpot, hp, hfb]
          rw [h] at hsub
          injection hsub with hr ht
          subst hr
          subst ht
          refine ⟨rfl, rfl, ?_, ?_⟩
          · intro pid fid hpid hfid
            cases hpid
            cases hfid
            refine ⟨by simp [addCall], by simp [addCall], ?_, ?_⟩
            · intro habs
              cases habs
            · rintro ⟨q, hq⟩
              cases hq
          · intro habs
            rcases habs with habs | habs <;> exact Option.noConfusion habs

/-- A context whose access token is unconfigured (so the primary pipeline
fails fast) but whose forms endpoint is configured and succeeds. -/
def fallbackCtx : HubSpotCtx :=
  ⟨fun _ => .success contact123, ⟨none, some "portal", some "form", none, none⟩,
    "2026-10-11T00:00:00.000Z"⟩

/-- Witness form data for the fallback scenario. -/
def fbFormData : HubSpotFormData :=
  ⟨"user@example.com", none, none, none, none, none, none, none, none, none⟩

/-- Witness for C2: with the token missing the primary pipeline fails, one
fallback request is issued, the overall result has `success = false` and
`fallbackUsed = true`. -/
theorem submitToHubSpotContract_witness :
    (submitToHubSpot fallbackCtx fbFormData upsertResults emptyTrace).1.success = false ∧
    (submitToHubSpot fallbackCtx fbFormData upsertResults emptyTrace).1.contactId = none ∧
    (submitToHubSpot fallbackCtx fbFormData upsertResults emptyTrace).1.fallbackUsed = true ∧
    (submitToHubSpot fallbackCtx fbFormData upsertResults emptyTrace).2.calls =
      [.fallbackSubmit "portal" "form" (fallbackFields fbFormData)] := by
  have hprim : primaryPipeline fallbackCtx fbFormData upsertResults emptyTrace =
      (.error (.other "HubSpot access token is not configured."), emptyTrace) := rfl
  have h := (submitToHubSpotContract fallbackCtx fbFormData upsertResults emptyTrace
    (submitToHubSpot fallbackCtx fbFormData upsertResults emptyTrace).1
    (submitToHubSpot fallbackCtx fbFormData upsertResults emptyTrace).2 rfl).2 _ _ hprim
  obtain ⟨hs, hcid, hcfg, _⟩ := h
  obtain ⟨hcalls, hsleeps, hiff⟩ := hcfg "portal" "form" rfl rfl
  refine ⟨hs, hcid, hiff.2 ⟨contact123, rfl⟩, ?_⟩
  simpa [emptyTrace] using hcalls

/-- C8: `createHubSpotDeal` skips (returning `success := false` and issuing
no request) whenever `annualRevenueLost ≤ 50,000` — including exactly
50,000 — and for `annualRevenueLost = 50,001` it fetches the contact and
issues a deal-creation request whose amount is
`50001 · 0.25 · 3 = 37500.75`. -/
theorem createDealThreshold (ctx : HubSpotCtx) (contactId : String)
    (res : CalculatorResults) (t : Trace) :
    (res.annualRevenueLost ≤ 50000 →
      createHubSpotDeal ctx contactId res t =
        (⟨false, none, "Annual revenue lost below threshold. Deal creation skipped."⟩, t)) ∧
    (res.annualRevenueLost = 50001 →
      ∀ tok contact, ctx.config.accessToken = some tok →
        ctx.oracle t.calls.length = .success contact →
        (dealPropertiesFor contact res).amount = 37500.75 ∧
        ∃ result t3 rest, createHubSpotDeal ctx contactId res t = (result, t3) ∧
          t3.calls = t.calls ++
            [.getContactDetails contactId,
              .createDeal (dealPropertiesFor contact res) contactId] ++ rest) := by
  constructor
  · intro hle
    simp [createHubSpotDeal, if_pos hle]
  · intro h50 tok contact htok hoc
    have hfd : fetchContactDetails ctx contactId t =
        (.ok contact, addCall (.getContactDetails contactId) t) := by
      rw [fetchContactDetails]
      exact withRetry_ok_first (fun _ => hubspotRequest ctx (.getContactDetails contactId)) t _ _
        (by simp [hubspotRequest_eq htok, hoc, outcomeResult])
    have hgt : ¬ res.annualRevenueLost ≤ 50000 := by rw [h50]; norm_num
    obtain ⟨k, hk1, hk3, heq, _, _⟩ := withRetry_request ctx
      (.createDeal (dealPropertiesFor contact res) contactId)
      (addCall (.getContactDetails contactId) t) tok htok
    have hamount : (dealPropertiesFor contact res).amount = 37500.75 := by
      simp only [dealPropertiesFor, h50]
      norm_num
    have hrepl :
        List.replicate k (HubSpotCall.createDeal (dealPropertiesFor contact res) contactId) =
          HubSpotCall.createDeal (dealPropertiesFor contact res) contactId ::
            List.replicate (k - 1)
              (HubSpotCall.createDeal (dealPropertiesFor contact res) contactId) := by
      cases k with
      | zero => omega
      | succ n => rfl
    refine ⟨hamount, ?_⟩
    rcases ho2 : outcomeResult (ctx.oracle
        ((addCall (.getContactDetails contactId) t).calls.length + (k - 1))) with e2 | payload
    · refine ⟨⟨false, none, "Unable to create a HubSpot deal at this time."⟩,
        ⟨(addCall (.getContactDetails contactId) t).calls ++
          List.replicate k (.createDeal (dealPropertiesFor contact res) contactId),
          (addCall (.getContactDetails contactId) t).sleeps ++ backoffs (k - 1)⟩,
        List.replicate (k - 1) (.createDeal (dealPropertiesFor contact res) contactId),
        ?_, ?_⟩
      · simp only [createHubSpotDeal, if_neg hgt, hfd]
        rw [heq, ho2]
      · simp [addCall, hrepl]
    · refine ⟨⟨true, some payload.id, "Deal created successfully."⟩,
        ⟨(addCall (.getContactDetails contactId) t).calls ++
          List.replicate k (.createDeal (dealPropertiesFor contact res) contactId),
          (addCall (.getContactDetails contactId) t).sleeps ++ backoffs (k - 1)⟩,
        List.replicate (k - 1) (.createDeal (dealPropertiesFor contact res) contactId),
        ?_, ?_⟩
      · simp only [createHubSpotDeal, if_neg hgt, hfd]
        rw [heq, ho2]
      · simp [addCall, hrepl]

/-- A remote and token for the deal-creation witness. -/
def dealCtx : HubSpotCtx :=
  ⟨fun _ => .success egPayload, ⟨some "token", none, none, none, none⟩,
    "2026-10-11T00:00:00.000Z"⟩

/-- Calculator results at exactly the threshold. -/
def res50000 : CalculatorResults := ⟨50000, [], 0, []⟩

/-- Calculator results one dollar above the threshold. -/
def res50001 : CalculatorResults := ⟨50001, [], 0, []⟩

/-- Witness for C8: 50,000 is skipped with no request; 50,001 issues the
deal request with amount 37,500.75. -/
theorem createDealThreshold_witness :
    createHubSpotDeal dealCtx "123" res50000 emptyTrace =
      (⟨false, none, "Annual revenue lost below threshold. Deal creation skipped."⟩,
        emptyTrace) ∧
    (dealPropertiesFor egPayload res50001).amount = 37500.75 ∧
    ∃ result t3 rest, createHubSpotDeal dealCtx "123" res50001 emptyTrace = (result, t3) ∧
      t3.calls = emptyTrace.calls ++
        [.getContactDetails "123", .createDeal (dealPropertiesFor egPayload res50001) "123"]
        ++ rest := by
  have h1 := (createDealThreshold dealCtx "123" res50000 emptyTrace).1 (by norm_num [res50000])
  have h2 := (createDealThreshold dealCtx "123" res50001 emptyTrace).2 rfl "token" egPayload
    rfl rfl
  exact ⟨h1, h2.1, h2.2⟩

/-- C9: `calculateLeadScore` returns 10 for non-finite or non-positive
input; otherwise it equals `round(min(value, 1,000,000)/1,000,000 · 100)`
(the `Math.min(100, ·)` in the source never binds); and the score always
lies in `[0, 100]`. -/
theorem leadScoreSpec (x : JsNumber) :
    calculateLeadScore .nonFinite = 10 ∧
    (∀ q : ℚ, q ≤ 0 → calculateLeadScore (.finite q) = 10) ∧
    (∀ q : ℚ, 0 < q →
      calculateLeadScore (.finite q) = jsRound (min q 1000000 / 1000000 * 100)) ∧
    0 ≤ calculateLeadScore x ∧ calculateLeadScore x ≤ 100 := by
  have hgen : ∀ q : ℚ, 0 < q → jsRound (min q 1000000 / 1000000 * 100) ≤ 100 := by
    intro q hq
    have hle : min q 1000000 ≤ 1000000 := min_le_right _ _
    have hmap : (min q 1000000 / 1000000 * 100 : ℚ) ≤ 100 := by linarith
    have harg : (min q 1000000 / 1000000 * 100 + 1 / 2 : ℚ) < 101 := by linarith
    have := Int.floor_lt.2
      (show (min q 1000000 / 1000000 * 100 + 1 / 2 : ℚ) < ((101 : ℤ) : ℚ) by exact_mod_cast harg)
    simp only [jsRound]
    omega
  have hnn : ∀ q : ℚ, 0 < q → 0 ≤ jsRound (min q 1000000 / 1000000 * 100) := by
    intro q hq
    have h0 : (0 : ℚ) ≤ min q 1000000 := le_min (le_of_lt hq) (by norm_num)
    have hm : (0 : ℚ) ≤ min q 1000000 / 1000000 * 100 :=
      mul_nonneg (div_nonneg h0 (by norm_num)) (by norm_num)
    have harg : (0 : ℚ) ≤ min q 1000000 / 1000000 * 100 + 1 / 2 := by linarith
    simp only [jsRound]
    exact Int.le_floor.2 (by exact_mod_cast harg)
  refine ⟨rfl, ?_, ?_, ?_, ?_⟩
  · intro q hq
    simp [calculateLeadScore, if_pos hq]
  · intro q hq
    have hq' : ¬ q ≤ 0 := not_le.2 hq
    simp only [calculateLeadScore, if_neg hq']
    exact min_eq_right (hgen q hq)
  · cases x with
    | nonFinite => norm_num [calculateLeadScore]
    | finite q =>
      by_cases hq : q ≤ 0
      · simp [calculateLeadScore, if_pos hq]
      · have hq0 : 0 < q := not_le.1 hq
        simp only [calculateLeadScore, if_neg hq]
        exact le_min (by norm_num) (hnn q hq0)
  · cases x with
    | nonFinite => norm_num [calculateLeadScore]
    | finite q =>
      by_cases hq : q ≤ 0
      · simp [calculateLeadScore, if_pos hq]
      · simp only [calculateLeadScore, if_neg hq]
        exact min_le_left _ _

/-- Witness for C9 at a projected loss of 500,000: score 50, in range. -/
theorem leadScoreSpec_witness :
    calculateLeadScore (.finite 500000) = jsRound (min 500000 1000000 / 1000000 * 100) ∧
    jsRound (min (500000 : ℚ) 1000000 / 1000000 * 100) = 50 ∧
    0 ≤ calculateLeadScore (.finite 500000) ∧ calculateLeadScore (.finite 500000) ≤ 100 := by
  have h := leadScoreSpec (.finite 500000)
  refine ⟨h.2.2.1 500000 (by norm_num), ?_, h.2.2.2.1, h.2.2.2.2⟩
  have hmin : min (500000 : ℚ) 1000000 = 500000 := by norm_num
  rw [hmin]
  simp only [jsRound]
  rw [Int.floor_eq_iff]
  constructor <;> norm_num

/-- C10: for any projected loss strictly between 0 and 95,000 the score is
at most 9, strictly below the floor score 10 assigned to a zero or
negative loss. -/
theorem leadScoreNotMonotoneAtZero (q : ℚ) (h0 : 0 < q) (h95 : q < 95000) :
    calculateLeadScore (.finite q) ≤ 9 ∧
    (∀ r : ℚ, r ≤ 0 → calculateLeadScore (.finite r) = 10) ∧
    calculateLeadScore (.finite q) < calculateLeadScore (.finite 0) := by
  have hq' : ¬ q ≤ 0 := not_le.2 h0
  have hmin : min q 1000000 = q := min_eq_left (by linarith)
  have hfl : jsRound (min q 1000000 / 1000000 * 100) ≤ 9 := by
    simp only [jsRound, hmin]
    have harg : (q / 1000000 * 100 + 1 / 2 : ℚ) < 10 := by linarith
    have := Int.floor_lt.2
      (show (q / 1000000 * 100 + 1 / 2 : ℚ) < ((10 : ℤ) : ℚ) by exact_mod_cast harg)
    omega
  have hscore : calculateLeadScore (.finite q) ≤ 9 := by
    simp only [calculateLeadScore, if_neg hq']
    exact le_trans (min_le_right _ _) hfl
  have hzero : calculateLeadScore (.finite 0) = 10 := by norm_num [calculateLeadScore]
  refine ⟨hscore, fun r hr => by simp [calculateLeadScore, if_pos hr], ?_⟩
  rw [hzero]
  omega

/-- Witness for C10 at a projected loss of 1: score at most 9, strictly
below the score of a zero loss. -/
theorem leadScoreNotMonotoneAtZero_witness :
    (0 : ℚ) < 1 ∧ (1 : ℚ) < 95000 ∧ calculateLeadScore (.finite 1) ≤ 9 ∧
    calculateLeadScore (.finite 1) < calculateLeadScore (.finite 0) := by
  have h := leadScoreNotMonotoneAtZero 1 (by norm_num) (by norm_num)
  exact ⟨by norm_num, by norm_num, h.1, h.2.2⟩

end ChurnCalc
